import Mathlib

/-
Shallow embedding of `src/model.py` (class `BLEBlind`) from the
simmsb/ha-ble-blinds repository.

Modelling conventions:
* `BlindState` mirrors the mutable fields of a `BLEBlind` instance.
* Each Python coroutine becomes a pure function returning its result
  (as `Except BleErr`), the updated state, the remaining transport
  oracle (`World`), and an event trace (`List Event`) recording lock
  acquisitions, transport calls, backoff sleeps, timer actions and
  callback invocations.
* The transport is an oracle: a list of outcomes consumed one entry per
  GATT read/write call; an empty oracle defaults to success with an
  empty payload.
* Callbacks are identifiers (`Nat`); the parameter `unreg : Nat → Bool`
  says which callbacks unregister themselves (run the closure returned
  by `register_callback`) when invoked, mirroring Python
  `list.remove` / index-based `for` iteration semantics exactly.
* Machine integers: positions are `Nat`; `struct.pack("<H", p)` fails
  for `p ≥ 2^16` exactly as in CPython, hence `packH : Nat → Option _`.
-/

namespace Blind

/-- `DISCONNECT_DELAY = 120` (seconds), src/model.py line 27. -/
def DISCONNECT_DELAY : Nat := 120

/-- `BLEAK_BACKOFF_TIME = 0.25` seconds, modelled in milliseconds. -/
def BLEAK_BACKOFF_TIME_MS : Nat := 250

/-- `DEFAULT_ATTEMPTS = 3`, src/model.py line 30. -/
def DEFAULT_ATTEMPTS : Nat := 3

/-- The exception taxonomy relevant to `model.py`.
`dbus` = `BleakDBusError` (soft-transient, in `RETRY_BACKOFF_EXCEPTIONS`),
`bleak` = any other `BleakError` (generic transport failure),
`notFound` = `BleakNotFoundError` (a `BleakError` subclass),
`charMissing` = `CharacteristicMissingError` (src/model.py line 24, not a
`BleakError`), `structError` = `struct.error` from `struct.pack`,
`assertFail` = `AssertionError` from a failed `assert`. -/
inductive BleErr
  | dbus
  | bleak
  | notFound
  | charMissing
  | structError
  | assertFail
deriving DecidableEq, Repr

/-- A transport session handle (`BleakClientWithServiceCache`): the model
only needs its `is_connected` flag. -/
structure Client where
  is_connected : Bool
deriving DecidableEq, Repr

/-- The two `asyncio.Lock`s of `BLEBlind`: `_operation_lock` and
`_connect_lock`. -/
inductive LockId
  | opGate
  | connectGate
deriving DecidableEq, Repr

/-- Observable events of a run. -/
inductive Event
  | acquire (l : LockId)
  | release (l : LockId)
  | connectTransport
  | resolveAttempt (refetch : Bool)
  | backoff
  | writeGatt (payload : List Nat) (response : Bool)
  | readGatt
  | stopNotify
  | transportDisconnect
  | timerCancel
  | timerArm (delay : Nat)
  | fire (cb : Nat) (value : Nat)
deriving DecidableEq, Repr

/-- The mutable fields of a `BLEBlind` instance (src/model.py lines 36-47). -/
structure BlindState where
  client : Option Client
  position_read_char : Option Nat
  position_write_char : Option Nat
  disconnect_timer : Option Nat
  expected_disconnect : Bool
  callbacks : List Nat
  position : Nat
deriving DecidableEq, Repr

/-- Outcome of one transport GATT call. -/
inductive TRes
  | ok (data : List Nat)
  | err (e : BleErr)
deriving DecidableEq, Repr

/-- The transport oracle: outcomes consumed one per GATT read/write. -/
abbrev World := List TRes

/-- Pop the next transport outcome; an exhausted oracle defaults to a
successful call with empty payload. -/
def takeWorld (w : World) : TRes × World :=
  match w with
  | [] => (.ok [], [])
  | r :: rest => (r, rest)

/-- `self._client and self._client.is_connected` (src/model.py line 134). -/
def isConnected (s : BlindState) : Bool :=
  match s.client with
  | some c => c.is_connected
  | none => false

/-- `_reset_disconnect_timer` (src/model.py lines 165-172): cancel any
pending timer, clear `_expected_disconnect`, arm a fresh
`DISCONNECT_DELAY` countdown. -/
def resetDisconnectTimer (s : BlindState) : BlindState × List Event :=
  let cancelEvs : List Event :=
    match s.disconnect_timer with
    | some _ => [.timerCancel]
    | none => []
  ({ s with expected_disconnect := false, disconnect_timer := some DISCONNECT_DELAY },
    cancelEvs ++ [.timerArm DISCONNECT_DELAY])

/-- The service/characteristic catalogue a session advertises
(`BleakGATTServiceCollection`), abstracted to: does it hold the service
with `SERVICE_UUID`, and which read/write characteristic handles that
service yields. -/
structure Catalogue where
  hasService : Bool
  readChar : Option Nat
  writeChar : Option Nat
deriving DecidableEq, Repr

/-- `_resolve_characteristics` (src/model.py lines 372-379): find the
service, store each characteristic found, return
`bool(self._position_read_char and self._position_write_char)` — note the
returned flag reads the instance fields, so handles kept from an earlier
resolution count. -/
def resolveCharacteristics (s : BlindState) (services : Catalogue) : BlindState × Bool :=
  let s2 :=
    if services.hasService then
      let s1 :=
        match services.readChar with
        | some h => { s with position_read_char := some h }
        | none => s
      match services.writeChar with
      | some h => { s1 with position_write_char := some h }
      | none => s1
    else s
  (s2, s2.position_read_char.isSome && s2.position_write_char.isSome)

/-- The environment for a connect: the catalogue served from the cache by
`client.services`, and the catalogue a forced `client.get_services()`
re-fetch returns. `establish_connection` itself is assumed to succeed and
yield a connected client. -/
structure Env where
  cached : Catalogue
  refetched : Catalogue
deriving DecidableEq, Repr

/-- `_ensure_connected` (src/model.py lines 126-163): early-return when
already connected (rearming the idle timer only); otherwise, under
`_connect_lock`: re-check, `establish_connection`, resolve
characteristics from the cached catalogue, on failure re-fetch the
service list once and resolve again, store the client, rearm the timer.
The second `resolved` flag is not consulted afterwards. -/
def ensureConnected (env : Env) (s : BlindState) : BlindState × List Event :=
  if isConnected s then
    resetDisconnectTimer s
  else
    if isConnected s then
      -- re-check while holding the lock
      let (s1, evs) := resetDisconnectTimer s
      (s1, [Event.acquire .connectGate] ++ evs ++ [Event.release .connectGate])
    else
      let (s1, resolved) := resolveCharacteristics s env.cached
      let (s2, resolveEvs) :=
        if resolved then
          (s1, [Event.resolveAttempt false])
        else
          let (s2, _) := resolveCharacteristics s1 env.refetched
          (s2, [Event.resolveAttempt false, Event.resolveAttempt true])
      let s3 := { s2 with client := some { is_connected := true } }
      let (s4, timerEvs) := resetDisconnectTimer s3
      (s4, [Event.acquire .connectGate, Event.connectTransport]
            ++ resolveEvs ++ timerEvs ++ [Event.release .connectGate])

/-- `_execute_disconnect` (src/model.py lines 201-218): under
`_connect_lock`, mark the next disconnect expected, clear the client and
both characteristic handles, then (if a live client was held) best-effort
stop notifications and disconnect the transport. -/
def executeDisconnect (s : BlindState) : BlindState × List Event :=
  let readChar := s.position_read_char
  let client := s.client
  let s1 := { s with expected_disconnect := true, client := none,
                     position_read_char := none, position_write_char := none }
  let tearEvs : List Event :=
    match client with
    | some c =>
      if c.is_connected then
        (match readChar with
         | some _ => [Event.stopNotify]
         | none => []) ++ [Event.transportDisconnect]
      else []
    | none => []
  (s1, [Event.acquire .connectGate] ++ tearEvs ++ [Event.release .connectGate])

/-- `_disconnect` + `_execute_timed_disconnect` (src/model.py lines
187-199): the idle timer fired, so the handle is gone; the spawned task
runs `_execute_disconnect`. -/
def disconnectTimerFired (s : BlindState) : BlindState × List Event :=
  executeDisconnect { s with disconnect_timer := none }

/-- `struct.pack("<H", p)`: two little-endian bytes, `struct.error` when
`p ≥ 2^16`. -/
def packH (p : Nat) : Option (List Nat) :=
  if p < 65536 then some [p % 256, p / 256] else none

/-- `struct.unpack("<H", data)`: requires exactly two bytes, else
`struct.error` (modelled as `none`). -/
def unpackH (data : List Nat) : Option Nat :=
  match data with
  | [a, b] => some (a + 256 * b)
  | _ => none

/-- One step of the Python `for callback in self._callbacks` loop in
`_fire_callbacks` (src/model.py lines 82-85): the list iterator is
index-based, so when the invoked callback removes itself
(`self._callbacks.remove(callback)`, the closure from
`register_callback`, lines 92-93) the list shrinks in place and the
iterator's next index skips the element that shifted into the removed
slot. `fuel` bounds the loop; `cbs.length` suffices since the index grows
by one per iteration and the list never grows. -/
def fireAux (unreg : Nat → Bool) : Nat → List Nat → Nat → List Nat × List Nat
  | 0, lst, _ => (lst, [])
  | fuel + 1, lst, i =>
    if h : i < lst.length then
      let cb := lst.get ⟨i, h⟩
      let lst1 := if unreg cb then lst.erase cb else lst
      let rest := fireAux unreg fuel lst1 (i + 1)
      (rest.1, cb :: rest.2)
    else (lst, [])

/-- `_fire_callbacks` (src/model.py lines 82-85), returning the callback
list after the loop and the callbacks invoked, in invocation order. -/
def fireCallbacks (unreg : Nat → Bool) (cbs : List Nat) : List Nat × List Nat :=
  fireAux unreg cbs.length cbs 0

/-- `_notification_handler` (src/model.py lines 102-109): try to decode a
little-endian u16 into `self._position` (a decode failure is logged and
leaves the position unchanged), then fire the callbacks. -/
def notificationHandler (unreg : Nat → Bool) (data : List Nat) (s : BlindState) :
    BlindState × List Event :=
  let s1 :=
    match unpackH data with
    | some v => { s with position := v }
    | none => s
  let (cbs, fired) := fireCallbacks unreg s1.callbacks
  ({ s1 with callbacks := cbs }, fired.map fun c => Event.fire c s1.position)

/-- `_execute_position_locked` (src/model.py lines 111-117):
`assert self._client is not None`; raise `CharacteristicMissingError`
when the write characteristic is unresolved; else
`write_gatt_char(char, struct.pack("<H", position), True)`. -/
def executePositionLocked (position : Nat) (s : BlindState) (w : World) :
    Except BleErr Unit × BlindState × World × List Event :=
  match s.client with
  | none => (.error .assertFail, s, w, [])
  | some _ =>
    match s.position_write_char with
    | none => (.error .charMissing, s, w, [])
    | some _ =>
      match packH position with
      | none => (.error .structError, s, w, [])
      | some payload =>
        let (res, w1) := takeWorld w
        match res with
        | .ok _ => (.ok (), s, w1, [Event.writeGatt payload true])
        | .err e => (.error e, s, w1, [Event.writeGatt payload true])

/-- `_read_position_locked` (src/model.py lines 119-124):
`assert self._client is not None`; raise `CharacteristicMissingError`
when the read characteristic is unresolved; else `read_gatt_char` and
feed the payload to `_notification_handler`. -/
def readPositionLocked (unreg : Nat → Bool) (s : BlindState) (w : World) :
    Except BleErr Unit × BlindState × World × List Event :=
  match s.client with
  | none => (.error .assertFail, s, w, [])
  | some _ =>
    match s.position_read_char with
    | none => (.error .charMissing, s, w, [])
    | some _ =>
      let (res, w1) := takeWorld w
      match res with
      | .err e => (.error e, s, w1, [Event.readGatt])
      | .ok data =>
        let (s1, evs) := notificationHandler unreg data s
        (.ok (), s1, w1, [Event.readGatt] ++ evs)

/-- The shared except-clauses of `_set_position_locked` /
`_get_position_locked` (src/model.py lines 322-340 and 347-365): on
`BleakDBusError` sleep `BLEAK_BACKOFF_TIME` then `_execute_disconnect`
and re-raise; on any other `BleakError` (including `BleakNotFoundError`,
a subclass) `_execute_disconnect` and re-raise; anything else passes
through untouched. -/
def lockedErrHandler (e : BleErr) (s : BlindState) : BlindState × List Event :=
  match e with
  | .dbus =>
    let (s1, evs) := executeDisconnect s
    (s1, [Event.backoff] ++ evs)
  | .bleak =>
    let (s1, evs) := executeDisconnect s
    (s1, evs)
  | .notFound =>
    let (s1, evs) := executeDisconnect s
    (s1, evs)
  | _ => (s, [])

/-- The body of `_set_position_locked` (src/model.py lines 318-340), i.e.
one attempt as the retry decorator sees it. -/
def setPositionLockedBody (position : Nat) (s : BlindState) (w : World) :
    Except BleErr Unit × BlindState × World × List Event :=
  match executePositionLocked position s w with
  | (.ok _, s1, w1, evs) => (.ok (), s1, w1, evs)
  | (.error e, s1, w1, evs) =>
    let (s2, evs2) := lockedErrHandler e s1
    (.error e, s2, w1, evs ++ evs2)

/-- The body of `_get_position_locked` (src/model.py lines 343-365). -/
def getPositionLockedBody (unreg : Nat → Bool) (s : BlindState) (w : World) :
    Except BleErr Unit × BlindState × World × List Event :=
  match readPositionLocked unreg s w with
  | (.ok _, s1, w1, evs) => (.ok (), s1, w1, evs)
  | (.error e, s1, w1, evs) =>
    let (s2, evs2) := lockedErrHandler e s1
    (.error e, s2, w1, evs ++ evs2)

/-- Which errors the retry decorator catches. Modelled from the spec:
soft-transient and generic transport errors are retried up to the
attempt budget (spec sections 4.3 and 7(c)-(d)); not-found and
characteristic-missing are fatal for the current call with no retry
(spec sections 7(a)-(b)); assertion and pack failures are not transport
errors at all. -/
def isRetryExc : BleErr → Bool
  | .dbus => true
  | .bleak => true
  | _ => false

/-- Modelled from the spec: the decorator
`retry_bluetooth_connection_error(DEFAULT_ATTEMPTS)` applied to
`_set_position_locked` / `_get_position_locked` (src/model.py lines 317
and 342) lives in the external `bleak_retry_connector` package, not in
this repository's sources. Per the spec (section 4.3): run the wrapped
body; on a retryable transport error re-run it, up to `attempts` total
attempts including the first, re-raising once the budget is exhausted;
other errors propagate immediately. -/
def retryWrap (attempts : Nat)
    (body : BlindState → World → Except BleErr Unit × BlindState × World × List Event)
    (s : BlindState) (w : World) :
    Except BleErr Unit × BlindState × World × List Event :=
  match attempts with
  | 0 => (.ok (), s, w, [])
  | n + 1 =>
    match body s w with
    | (.ok _, s1, w1, evs) => (.ok (), s1, w1, evs)
    | (.error e, s1, w1, evs) =>
      if isRetryExc e && n != 0 then
        let (r, s2, w2, evs2) := retryWrap n body s1 w1
        (r, s2, w2, evs ++ evs2)
      else
        (.error e, s1, w1, evs)

/-- `_set_position_locked` with its decorator. -/
def setPositionLocked (position : Nat) (s : BlindState) (w : World) :
    Except BleErr Unit × BlindState × World × List Event :=
  retryWrap DEFAULT_ATTEMPTS (setPositionLockedBody position) s w

/-- `_get_position_locked` with its decorator. -/
def getPositionLocked (unreg : Nat → Bool) (s : BlindState) (w : World) :
    Except BleErr Unit × BlindState × World × List Event :=
  retryWrap DEFAULT_ATTEMPTS (getPositionLockedBody unreg) s w

/-- `_set_position_while_connected` (src/model.py lines 275-315): run the
locked operation under `_operation_lock`; every except clause only logs
and re-raises, so the result passes through unchanged. -/
def setPositionWhileConnected (position : Nat) (s : BlindState) (w : World) :
    Except BleErr Unit × BlindState × World × List Event :=
  let (r, s1, w1, evs) := setPositionLocked position s w
  (r, s1, w1, [Event.acquire .opGate] ++ evs ++ [Event.release .opGate])

/-- `_get_position_while_connected` (src/model.py lines 234-273). -/
def getPositionWhileConnected (unreg : Nat → Bool) (s : BlindState) (w : World) :
    Except BleErr Unit × BlindState × World × List Event :=
  let (r, s1, w1, evs) := getPositionLocked unreg s w
  (r, s1, w1, [Event.acquire .opGate] ++ evs ++ [Event.release .opGate])

/-- `set_position` (src/model.py lines 368-370): `_set_position` (which is
`_ensure_connected` then `_set_position_while_connected`, lines 227-232)
followed — only on success — by `_fire_callbacks()`. Note the position
field is never assigned. -/
def set_position (unreg : Nat → Bool) (env : Env) (position : Nat)
    (s : BlindState) (w : World) :
    Except BleErr Unit × BlindState × World × List Event :=
  let (s1, evs1) := ensureConnected env s
  let (r, s2, w2, evs2) := setPositionWhileConnected position s1 w
  match r with
  | .error e => (.error e, s2, w2, evs1 ++ evs2)
  | .ok _ =>
    let (cbs, fired) := fireCallbacks unreg s2.callbacks
    (.ok (), { s2 with callbacks := cbs }, w2,
      evs1 ++ evs2 ++ fired.map fun c => Event.fire c s2.position)

/-- `_get_position` (src/model.py lines 220-225): `_ensure_connected` then
`_get_position_while_connected`. -/
def get_position (unreg : Nat → Bool) (env : Env) (s : BlindState) (w : World) :
    Except BleErr Unit × BlindState × World × List Event :=
  let (s1, evs1) := ensureConnected env s
  let (r, s2, w2, evs2) := getPositionWhileConnected unreg s1 w
  (r, s2, w2, evs1 ++ evs2)

/-- Is this event a callback invocation? -/
def Event.isFire : Event → Bool
  | .fire _ _ => true
  | _ => false

/-- Is this event a characteristic-resolution attempt? -/
def Event.isResolve : Event → Bool
  | .resolveAttempt _ => true
  | _ => false

/-- Scanner for the amended lock-order invariant: walk the trace keeping
the connect-gate depth; flag any operation-gate acquisition performed
while the connect-gate is held. -/
def scanOW : List Event → Int → Bool × Int
  | [], d => (false, d)
  | e :: r, d =>
    let bad : Bool :=
      match e with
      | .acquire .opGate => d != 0
      | _ => false
    let d1 : Int :=
      match e with
      | .acquire .connectGate => d + 1
      | .release .connectGate => d - 1
      | _ => d
    let (b, dE) := scanOW r d1
    (bad || b, dE)

/-- `true` iff somewhere in the trace the operation-gate is acquired while
the connect-gate is held. -/
def opWhileConnect (tr : List Event) : Bool := (scanOW tr 0).1

/-- Scanner for the claimed lock-order invariant: walk the trace keeping
the operation-gate depth; flag any connect-gate acquisition performed
while the operation-gate is held. -/
def scanCW : List Event → Int → Bool × Int
  | [], d => (false, d)
  | e :: r, d =>
    let bad : Bool :=
      match e with
      | .acquire .connectGate => d != 0
      | _ => false
    let d1 : Int :=
      match e with
      | .acquire .opGate => d + 1
      | .release .opGate => d - 1
      | _ => d
    let (b, dE) := scanCW r d1
    (bad || b, dE)

/-- `true` iff somewhere in the trace the connect-gate is acquired while
the operation-gate is held. -/
def connectWhileOp (tr : List Event) : Bool := (scanCW tr 0).1

/-- No operation-gate acquisition occurs in the trace. -/
def noOpAcq (tr : List Event) : Bool :=
  tr.all fun e =>
    match e with
    | .acquire .opGate => false
    | _ => true

/-- No connect-gate acquisition or release occurs in the trace. -/
def noCLock (tr : List Event) : Bool :=
  tr.all fun e =>
    match e with
    | .acquire .connectGate => false
    | .release .connectGate => false
    | _ => true

/-- A catalogue exposing neither the service nor any characteristic. -/
def emptyCat : Catalogue := { hasService := false, readChar := none, writeChar := none }

/-- A catalogue exposing the service with both characteristics. -/
def fullCat : Catalogue := { hasService := true, readChar := some 1, writeChar := some 2 }

/-- Environment whose cached and re-fetched catalogues are both empty. -/
def emptyEnv : Env := { cached := emptyCat, refetched := emptyCat }

/-- Environment whose cached catalogue resolves both characteristics. -/
def fullEnv : Env := { cached := fullCat, refetched := fullCat }

/-- A freshly constructed, never-connected instance with one registered
callback (id 7). -/
def freshState : BlindState :=
  { client := none, position_read_char := none, position_write_char := none,
    disconnect_timer := none, expected_disconnect := false,
    callbacks := [7], position := 0 }

/-- A connected instance with both characteristics resolved, an armed idle
timer, one registered callback (id 7) and stored position 0. -/
def readyState : BlindState :=
  { client := some { is_connected := true },
    position_read_char := some 1, position_write_char := some 2,
    disconnect_timer := some DISCONNECT_DELAY, expected_disconnect := false,
    callbacks := [7], position := 0 }

/-- A connected instance whose characteristic handles are both unresolved
(e.g. after a connect whose resolution failed twice). -/
def noCharState : BlindState :=
  { readyState with position_read_char := none, position_write_char := none }

end Blind

namespace Blind

/-- Helper: a retryable-error result is returned unchanged by the
decorator when the error class is not retryable. -/
theorem retryWrap_no_retry (n : Nat)
    (body : BlindState → World → Except BleErr Unit × BlindState × World × List Event)
    (s : BlindState) (w : World) (e : BleErr) (s1 : BlindState) (w1 : World)
    (evs : List Event)
    (hb : body s w = (.error e, s1, w1, evs)) (he : isRetryExc e = false) :
    retryWrap (n + 1) body s w = (.error e, s1, w1, evs) := by
  simp [retryWrap, hb, he]

/-- Claim C1 (counterexample): starting from a connected, resolved state
with stored position 0 and one registered callback, `set_position 80`
succeeds, yet the locally stored position is still 0 (not 80) and the
callback is fired with value 0 (not 80): `set_position` never assigns the
position field, so there is no optimistic update. -/
theorem set_position_no_optimistic_update_cex :
    set_position (fun _ => false) fullEnv 80 readyState [TRes.ok []] =
      (.ok (), readyState, [],
       [Event.timerCancel, Event.timerArm 120, Event.acquire .opGate,
        Event.writeGatt [80, 0] true, Event.release .opGate, Event.fire 7 0])
  ∧ readyState.position = 0
  ∧ (0 : Nat) ≠ 80
  ∧ Event.fire 7 80 ∉
      [Event.timerCancel, Event.timerArm 120, Event.acquire .opGate,
       Event.writeGatt [80, 0] true, Event.release .opGate, Event.fire 7 0] :=
  ⟨rfl, rfl, by decide, by decide⟩

/-- Claim C2 (code evaluated at the failing input): from a connected,
resolved state, with the transport raising the soft-transient error on
attempt 1 and ready to succeed afterwards, `_set_position_locked` does
back off once and force one disconnect — but the forced disconnect clears
`self._client`, and the retry re-runs `_set_position_locked` without
re-running `_ensure_connected`, so attempt 2 dies on
`assert self._client is not None`. The overall result is the assertion
failure after exactly one backoff and one disconnect; the claimed
fail-fail-succeed run (success with two backoffs and two disconnects) is
unreachable. -/
theorem retry_after_soft_error_hits_cleared_client :
    setPositionLocked 80 readyState [TRes.err .dbus, TRes.err .dbus, TRes.ok []] =
      (.error .assertFail,
       { client := none, position_read_char := none, position_write_char := none,
         disconnect_timer := some 120, expected_disconnect := true,
         callbacks := [7], position := 0 },
       [TRes.err .dbus, TRes.ok []],
       [Event.writeGatt [80, 0] true, Event.backoff,
        Event.acquire .connectGate, Event.stopNotify, Event.transportDisconnect,
        Event.release .connectGate])
  ∧ List.count Event.backoff
      [Event.writeGatt [80, 0] true, Event.backoff,
       Event.acquire .connectGate, Event.stopNotify, Event.transportDisconnect,
       Event.release .connectGate] = 1
  ∧ List.count Event.transportDisconnect
      [Event.writeGatt [80, 0] true, Event.backoff,
       Event.acquire .connectGate, Event.stopNotify, Event.transportDisconnect,
       Event.release .connectGate] = 1 :=
  ⟨rfl, by decide, by decide⟩

/-- Claim C3: when the read (resp. write) characteristic handle is
unresolved on a connected state, the characteristic-missing error
propagates immediately and unchanged: the three-attempt wrapper behaves
exactly like a single attempt (no retry), the trace shows no backoff, no
disconnect and no transport call, and the state and transport oracle are
untouched. -/
theorem characteristic_missing_no_retry
    (pos : Nat) (unreg : Nat → Bool) (s : BlindState) (w : World) (c : Client)
    (hc : s.client = some c) :
    (s.position_read_char = none →
        getPositionLocked unreg s w = getPositionLockedBody unreg s w
      ∧ getPositionWhileConnected unreg s w =
          (.error .charMissing, s, w, [Event.acquire .opGate, Event.release .opGate]))
  ∧ (s.position_write_char = none →
        setPositionLocked pos s w = setPositionLockedBody pos s w
      ∧ setPositionWhileConnected pos s w =
          (.error .charMissing, s, w, [Event.acquire .opGate, Event.release .opGate])) := by
  constructor
  · intro hr
    have hbody : getPositionLockedBody unreg s w = (.error .charMissing, s, w, []) := by
      simp [getPositionLockedBody, readPositionLocked, hc, hr, lockedErrHandler]
    have hlocked : getPositionLocked unreg s w = (.error .charMissing, s, w, []) :=
      retryWrap_no_retry 2 (getPositionLockedBody unreg) s w .charMissing s w [] hbody rfl
    refine ⟨hlocked.trans hbody.symm, ?_⟩
    simp [getPositionWhileConnected, hlocked]
  · intro hw
    have hbody : setPositionLockedBody pos s w = (.error .charMissing, s, w, []) := by
      simp [setPositionLockedBody, executePositionLocked, hc, hw, lockedErrHandler]
    have hlocked : setPositionLocked pos s w = (.error .charMissing, s, w, []) :=
      retryWrap_no_retry 2 (setPositionLockedBody pos) s w .charMissing s w [] hbody rfl
    refine ⟨hlocked.trans hbody.symm, ?_⟩
    simp [setPositionWhileConnected, hlocked]

/-- Witness for C3 at a concrete connected state with both handles
unresolved. -/
theorem characteristic_missing_no_retry_witness :
    getPositionWhileConnected (fun _ => false) noCharState [] =
      (.error .charMissing, noCharState, [],
       [Event.acquire .opGate, Event.release .opGate])
  ∧ setPositionWhileConnected 80 noCharState [] =
      (.error .charMissing, noCharState, [],
       [Event.acquire .opGate, Event.release .opGate]) :=
  ⟨((characteristic_missing_no_retry 80 (fun _ => false) noCharState []
      { is_connected := true } rfl).1 rfl).2,
   ((characteristic_missing_no_retry 80 (fun _ => false) noCharState []
      { is_connected := true } rfl).2 rfl).2⟩

/-- Claim C4 (code evaluated at the failing input): with callbacks
`[1, 2]` registered and callback 1 unregistering itself during its own
invocation, the Python `for` loop's index-based iterator skips callback 2
(which shifted into slot 0 after the in-place `remove`): only `[1]` is
invoked, while `[2]` is still registered and was never invoked in that
event. -/
theorem self_unregister_skips_next_callback :
    fireCallbacks (fun c => c == 1) [1, 2] = ([2], [1])
  ∧ 2 ∈ ([2] : List Nat)
  ∧ 2 ∉ ([1] : List Nat) :=
  ⟨rfl, by decide, by decide⟩

/-- Claim C5 (counterexample): connecting from a fresh state against a
device whose catalogue (cached and re-fetched alike) resolves nothing,
`_ensure_connected` performs the one re-fetch and then completes anyway:
the client is stored as connected and the idle timer armed even though
both characteristic handles remain unresolved — it does not give up. -/
theorem ensure_connected_completes_unresolved_cex :
    ensureConnected emptyEnv freshState =
      ({ client := some { is_connected := true }, position_read_char := none,
         position_write_char := none, disconnect_timer := some 120,
         expected_disconnect := false, callbacks := [7], position := 0 },
       [Event.acquire .connectGate, Event.connectTransport,
        Event.resolveAttempt false, Event.resolveAttempt true,
        Event.timerArm 120, Event.release .connectGate]) :=
  rfl

/-- Claim C6: with the session's client present, an unresolved write
(resp. read) characteristic handle makes the device write (resp. read)
procedure fail with the characteristic-missing error, with an empty
event trace — in particular no `write_gatt_char`/`read_gatt_char`
transport call — and the state and transport oracle untouched. -/
theorem unresolved_handle_blocks_transport
    (pos : Nat) (unreg : Nat → Bool) (s : BlindState) (w : World) (c : Client)
    (hc : s.client = some c) :
    (s.position_write_char = none →
       executePositionLocked pos s w = (.error .charMissing, s, w, []))
  ∧ (s.position_read_char = none →
       readPositionLocked unreg s w = (.error .charMissing, s, w, [])) := by
  constructor
  · intro hw
    simp [executePositionLocked, hc, hw]
  · intro hr
    simp [readPositionLocked, hc, hr]

/-- Witness for C6 at a concrete connected state with both handles
unresolved. -/
theorem unresolved_handle_blocks_transport_witness :
    executePositionLocked 80 noCharState [] = (.error .charMissing, noCharState, [], [])
  ∧ readPositionLocked (fun _ => false) noCharState [] =
      (.error .charMissing, noCharState, [], []) :=
  ⟨(unresolved_handle_blocks_transport 80 (fun _ => false) noCharState []
      { is_connected := true } rfl).1 rfl,
   (unresolved_handle_blocks_transport 80 (fun _ => false) noCharState []
      { is_connected := true } rfl).2 rfl⟩

/-- Claim C9: `_execute_disconnect` marks the next disconnect
notification expected, clears the client and both characteristic handles,
runs entirely between acquiring and releasing the connect-gate, leaves
the stored position and the callback list untouched, and is idempotent:
calling it again from the state it produced yields that same state. This
holds for every state, including already-disconnected ones, and the
timer-fired path (`_disconnect`) preserves position and callbacks too. -/
theorem execute_disconnect_idempotent_frame (s : BlindState) :
    (executeDisconnect s).1 =
      { s with expected_disconnect := true, client := none,
               position_read_char := none, position_write_char := none }
  ∧ (executeDisconnect s).1.position = s.position
  ∧ (executeDisconnect s).1.callbacks = s.callbacks
  ∧ (executeDisconnect s).1.disconnect_timer = s.disconnect_timer
  ∧ (executeDisconnect (executeDisconnect s).1).1 = (executeDisconnect s).1
  ∧ (∃ mid, (executeDisconnect s).2 =
        [Event.acquire .connectGate] ++ mid ++ [Event.release .connectGate])
  ∧ (disconnectTimerFired s).1.position = s.position
  ∧ (disconnectTimerFired s).1.callbacks = s.callbacks :=
  ⟨rfl, rfl, rfl, rfl, rfl, ⟨_, rfl⟩, rfl, rfl⟩

end Blind

namespace Blind

/-- Claim C8: when the session is already connected, `_ensure_connected`
only rearms the idle timer: it cancels any pending countdown, arms a
fresh 120-second one, clears the expected-disconnect flag, and leaves the
client, both characteristic handles, the stored position and the
callback list unchanged; its trace holds no transport connect and no
characteristic resolution. -/
theorem ensure_connected_idempotent_when_connected
    (env : Env) (s : BlindState) (h : isConnected s = true) :
    (ensureConnected env s).1 =
      { s with expected_disconnect := false, disconnect_timer := some 120 }
  ∧ (ensureConnected env s).1.client = s.client
  ∧ (ensureConnected env s).1.position_read_char = s.position_read_char
  ∧ (ensureConnected env s).1.position_write_char = s.position_write_char
  ∧ (ensureConnected env s).1.position = s.position
  ∧ (ensureConnected env s).1.callbacks = s.callbacks
  ∧ (ensureConnected env s).1.disconnect_timer = some 120
  ∧ (ensureConnected env s).2 =
      (match s.disconnect_timer with
        | some _ => [Event.timerCancel]
        | none => ([] : List Event)) ++ [Event.timerArm 120]
  ∧ Event.connectTransport ∉ (ensureConnected env s).2
  ∧ (∀ b, Event.resolveAttempt b ∉ (ensureConnected env s).2) := by
  have he : ensureConnected env s = resetDisconnectTimer s := by
    simp [ensureConnected, h]
  rw [he]
  rcases hdt : s.disconnect_timer with _ | d <;>
    simp [resetDisconnectTimer, hdt, DISCONNECT_DELAY]

/-- Witness for C8 at a concrete connected state. -/
theorem ensure_connected_idempotent_when_connected_witness :
    isConnected readyState = true
  ∧ (ensureConnected fullEnv readyState).2 = [Event.timerCancel, Event.timerArm 120]
  ∧ (ensureConnected fullEnv readyState).1.client = readyState.client :=
  ⟨by decide,
   by
    have h := ensure_connected_idempotent_when_connected fullEnv readyState (by decide)
    simpa using h.2.2.2.2.2.2.2.1,
   (ensure_connected_idempotent_when_connected fullEnv readyState (by decide)).2.1⟩

/-- Claim C10: positions travel as two little-endian bytes in both
directions, and writes carry the with-response flag: `struct.pack`
produces `[p % 256, p / 256]` for every `p < 2^16` and round-trips
through `struct.unpack`; the device write emits exactly one
`write_gatt_char` with that payload and `response = true`;
`setPosition 80` writes bytes `0x50 0x00`; a read payload `0x2C 0x00`
decodes to 44 and is stored as the position by the notification
handler. -/
theorem wire_format_little_endian (p : Nat) (hp : p < 65536) :
    packH p = some [p % 256, p / 256]
  ∧ p % 256 + 256 * (p / 256) = p
  ∧ unpackH [p % 256, p / 256] = some p
  ∧ (∀ (s : BlindState) (w : World) (c : Client) (h : Nat),
      s.client = some c → s.position_write_char = some h →
      (executePositionLocked p s w).2.2.2 = [Event.writeGatt [p % 256, p / 256] true])
  ∧ packH 80 = some [80, 0]
  ∧ unpackH [44, 0] = some 44
  ∧ (∀ (unreg : Nat → Bool) (s : BlindState),
      (notificationHandler unreg [44, 0] s).1.position = 44) := by
  refine ⟨by simp [packH, hp], Nat.mod_add_div p 256,
    by simp [unpackH, Nat.mod_add_div], ?_, by decide, by decide, ?_⟩
  · intro s w c h hc hw
    rcases hw' : packH p with _ | pl
    · simp [packH, hp] at hw'
    · have hpl : pl = [p % 256, p / 256] := by
        simp [packH, hp] at hw'
        exact hw'.symm
      rcases w with _ | ⟨r, rest⟩
      · simp [executePositionLocked, hc, hw, hw', hpl, takeWorld]
      · rcases r with d | e <;>
          simp [executePositionLocked, hc, hw, hw', hpl, takeWorld]
  · intro unreg s
    rcases hfc : fireCallbacks unreg ({ s with position := 44 } : BlindState).callbacks
      with ⟨cbs, fired⟩
    simp [notificationHandler, unpackH, hfc]

/-- Witness for C10 at `p = 80`. -/
theorem wire_format_little_endian_witness :
    packH 80 = some [80, 0] ∧ unpackH [44, 0] = some 44 :=
  ⟨(wire_format_little_endian 80 (by decide)).2.2.2.2.1,
   (wire_format_little_endian 80 (by decide)).2.2.2.2.2.1⟩

end Blind

namespace Blind

/-- Splitting a trace splits the lock-order scan. -/
theorem scanOW_append (xs ys : List Event) (d : Int) :
    scanOW (xs ++ ys) d =
      ((scanOW xs d).1 || (scanOW ys (scanOW xs d).2).1,
       (scanOW ys (scanOW xs d).2).2) := by
  induction xs generalizing d with
  | nil => simp [scanOW]
  | cons e r ih => simp [scanOW, ih, Bool.or_assoc]

/-- A trace with no operation-gate acquisition and no connect-gate event
neither trips the scanner nor moves the connect-gate depth. -/
theorem scanOW_neutral (tr : List Event) (h1 : noOpAcq tr = true)
    (h2 : noCLock tr = true) (d : Int) : scanOW tr d = (false, d) := by
  induction tr generalizing d with
  | nil => simp [scanOW]
  | cons e r ih =>
    simp only [noOpAcq, noCLock, List.all_cons, Bool.and_eq_true] at h1 h2
    have hr := ih h1.2 h2.2
    cases e with
    | acquire l =>
      cases l with
      | opGate => simp at h1
      | connectGate => simp at h2
    | release l =>
      cases l with
      | opGate => simp [scanOW, hr]
      | connectGate => simp at h2
    | connectTransport => simp [scanOW, hr]
    | resolveAttempt b => simp [scanOW, hr]
    | backoff => simp [scanOW, hr]
    | writeGatt pl b => simp [scanOW, hr]
    | readGatt => simp [scanOW, hr]
    | stopNotify => simp [scanOW, hr]
    | transportDisconnect => simp [scanOW, hr]
    | timerCancel => simp [scanOW, hr]
    | timerArm dl => simp [scanOW, hr]
    | fire cb v => simp [scanOW, hr]

/-- A connect-gated section built from a depth-neutral middle is itself
depth-neutral and trips nothing. -/
theorem scanOW_connect_section (mid : List Event)
    (h : ∀ d, scanOW mid d = (false, d)) (d : Int) :
    scanOW ([Event.acquire .connectGate] ++ mid ++ [Event.release .connectGate]) d
      = (false, d) := by
  simp [scanOW_append, scanOW, h]

/-- The timer-rearm trace is neutral for the scanner. -/
theorem resetTimer_trace_neutral (s : BlindState) (d : Int) :
    scanOW (resetDisconnectTimer s).2 d = (false, d) := by
  rcases hdt : s.disconnect_timer with _ | x <;>
    simp [resetDisconnectTimer, hdt, scanOW]

/-- The disconnect trace is neutral: it acquires and releases the
connect-gate in a balanced way and never touches the operation-gate. -/
theorem executeDisconnect_trace_neutral (s : BlindState) (d : Int) :
    scanOW (executeDisconnect s).2 d = (false, d) := by
  rcases hc : s.client with _ | c
  · simp [executeDisconnect, hc, scanOW]
  · cases hb : c.is_connected <;>
      rcases hr : s.position_read_char with _ | rc <;>
        simp [executeDisconnect, hc, hb, hr, scanOW]

/-- The device-write trace is neutral. -/
theorem executePositionLocked_trace_neutral (p : Nat) (s : BlindState)
    (w : World) (d : Int) :
    scanOW (executePositionLocked p s w).2.2.2 d = (false, d) := by
  rcases hc : s.client with _ | c
  · simp [executePositionLocked, hc, scanOW]
  · rcases hw : s.position_write_char with _ | h
    · simp [executePositionLocked, hc, hw, scanOW]
    · rcases hp : packH p with _ | pl
      · simp [executePositionLocked, hc, hw, hp, scanOW]
      · rcases w with _ | ⟨r, rest⟩
        · simp [executePositionLocked, hc, hw, hp, takeWorld, scanOW]
        · rcases r with dt | e <;>
            simp [executePositionLocked, hc, hw, hp, takeWorld, scanOW]

/-- Callback-invocation events are neutral. -/
theorem fires_trace_neutral (l : List Nat) (v : Nat) (d : Int) :
    scanOW (l.map fun c => Event.fire c v) d = (false, d) := by
  induction l generalizing d with
  | nil => simp [scanOW]
  | cons c r ih => simp [scanOW, ih]

/-- The notification-handler trace is neutral. -/
theorem notificationHandler_trace_neutral (unreg : Nat → Bool)
    (data : List Nat) (s : BlindState) (d : Int) :
    scanOW (notificationHandler unreg data s).2 d = (false, d) := by
  rcases hu : unpackH data with _ | v <;>
  · rw [notificationHandler, hu]
    rcases hfc : fireCallbacks unreg _ with ⟨cbs, fired⟩
    simp [hfc, fires_trace_neutral]

/-- The device-read trace is neutral. -/
theorem readPositionLocked_trace_neutral (unreg : Nat → Bool) (s : BlindState)
    (w : World) (d : Int) :
    scanOW (readPositionLocked unreg s w).2.2.2 d = (false, d) := by
  rcases hc : s.client with _ | c
  · simp [readPositionLocked, hc, scanOW]
  · rcases hr : s.position_read_char with _ | h
    · simp [readPositionLocked, hc, hr, scanOW]
    · rcases htw : takeWorld w with ⟨res, w1⟩
      rcases res with data | e
      · rcases hnh : notificationHandler unreg data s with ⟨s1, evs⟩
        have := notificationHandler_trace_neutral unreg data s
        rw [hnh] at this
        simp [readPositionLocked, hc, hr, htw, hnh, scanOW, scanOW_append, this]
      · simp [readPositionLocked, hc, hr, htw, scanOW]

/-- The inner error-handler trace (backoff and forced disconnect) is
neutral. -/
theorem lockedErrHandler_trace_neutral (e : BleErr) (s : BlindState) (d : Int) :
    scanOW (lockedErrHandler e s).2 d = (false, d) := by
  rcases hd : executeDisconnect s with ⟨s1, evs⟩
  have hevs : ∀ d, scanOW evs d = (false, d) := by
    intro d
    have := executeDisconnect_trace_neutral s d
    rw [hd] at this
    simpa using this
  have hdbus : lockedErrHandler .dbus s = (s1, [Event.backoff] ++ evs) := by
    simp only [lockedErrHandler, hd]
  have hbleak : lockedErrHandler .bleak s = (s1, evs) := by
    simp only [lockedErrHandler, hd]
  have hnot : lockedErrHandler .notFound s = (s1, evs) := by
    simp only [lockedErrHandler, hd]
  cases e with
  | dbus => rw [hdbus]; simp [scanOW, hevs]
  | bleak => rw [hbleak]; simp [hevs]
  | notFound => rw [hnot]; simp [hevs]
  | charMissing => simp [lockedErrHandler, scanOW]
  | structError => simp [lockedErrHandler, scanOW]
  | assertFail => simp [lockedErrHandler, scanOW]

/-- The single-attempt write body has a neutral trace. -/
theorem setBody_trace_neutral (p : Nat) (s : BlindState) (w : World) (d : Int) :
    scanOW (setPositionLockedBody p s w).2.2.2 d = (false, d) := by
  rcases hx : executePositionLocked p s w with ⟨r, s1, w1, evs⟩
  have hevs : ∀ d, scanOW evs d = (false, d) := by
    intro d
    have := executePositionLocked_trace_neutral p s w d
    rw [hx] at this
    simpa using this
  cases r with
  | ok v => simp [setPositionLockedBody, hx, hevs]
  | error e =>
    simp [setPositionLockedBody, hx, scanOW_append, hevs, lockedErrHandler_trace_neutral]

/-- The single-attempt read body has a neutral trace. -/
theorem getBody_trace_neutral (unreg : Nat → Bool) (s : BlindState) (w : World)
    (d : Int) :
    scanOW (getPositionLockedBody unreg s w).2.2.2 d = (false, d) := by
  rcases hx : readPositionLocked unreg s w with ⟨r, s1, w1, evs⟩
  have hevs : ∀ d, scanOW evs d = (false, d) := by
    intro d
    have := readPositionLocked_trace_neutral unreg s w d
    rw [hx] at this
    simpa using this
  cases r with
  | ok v => simp [getPositionLockedBody, hx, hevs]
  | error e =>
    simp [getPositionLockedBody, hx, scanOW_append, hevs, lockedErrHandler_trace_neutral]

/-- The retry wrapper preserves trace neutrality of its body. -/
theorem retryWrap_trace_neutral
    (body : BlindState → World → Except BleErr Unit × BlindState × World × List Event)
    (hb : ∀ s w d, scanOW (body s w).2.2.2 d = (false, d)) :
    ∀ (n : Nat) (s : BlindState) (w : World) (d : Int),
      scanOW (retryWrap n body s w).2.2.2 d = (false, d) := by
  intro n
  induction n with
  | zero => intro s w d; simp [retryWrap, scanOW]
  | succ n ih =>
    intro s w d
    rcases hx : body s w with ⟨r, s1, w1, evs⟩
    have hevs : ∀ d, scanOW evs d = (false, d) := by
      intro d
      have := hb s w d
      rw [hx] at this
      simpa using this
    cases r with
    | ok v => simp [retryWrap, hx, hevs]
    | error e =>
      by_cases hre : (isRetryExc e && n != 0) = true
      · rcases hy : retryWrap n body s1 w1 with ⟨r2, s2, w2, evs2⟩
        have hevs2 : ∀ d, scanOW evs2 d = (false, d) := by
          intro d
          have := ih s1 w1 d
          rw [hy] at this
          simpa using this
        simp [retryWrap, hx, hre, hy, scanOW_append, hevs, hevs2]
      · simp only [Bool.not_eq_true] at hre
        simp [retryWrap, hx, hre, hevs]

/-- The `_ensure_connected` trace is neutral. -/
theorem ensureConnected_trace_neutral (env : Env) (s : BlindState) (d : Int) :
    scanOW (ensureConnected env s).2 d = (false, d) := by
  cases hcon : isConnected s
  · rcases hr1 : resolveCharacteristics s env.cached with ⟨s1, resolved⟩
    cases resolved
    · rcases hr2 : resolveCharacteristics s1 env.refetched with ⟨s2, b2⟩
      simp [ensureConnected, hcon, hr1, hr2, scanOW_append, scanOW,
        resetTimer_trace_neutral]
    · simp [ensureConnected, hcon, hr1, scanOW_append, scanOW,
        resetTimer_trace_neutral]
  · simp [ensureConnected, hcon, resetTimer_trace_neutral]

end Blind

namespace Blind

/-- The retried write operation has a neutral trace. -/
theorem setPositionLocked_trace_neutral (pos : Nat) (s : BlindState) (w : World)
    (d : Int) : scanOW (setPositionLocked pos s w).2.2.2 d = (false, d) :=
  retryWrap_trace_neutral (setPositionLockedBody pos)
    (fun s w d => setBody_trace_neutral pos s w d) DEFAULT_ATTEMPTS s w d

/-- The retried read operation has a neutral trace. -/
theorem getPositionLocked_trace_neutral (unreg : Nat → Bool) (s : BlindState)
    (w : World) (d : Int) :
    scanOW (getPositionLocked unreg s w).2.2.2 d = (false, d) :=
  retryWrap_trace_neutral (getPositionLockedBody unreg)
    (fun s w d => getBody_trace_neutral unreg s w d) DEFAULT_ATTEMPTS s w d

/-- Claim C7 (counterexample): in a `set_position` run where the transport
raises the soft-transient error, the error-recovery disconnect inside the
retried body acquires the connect-gate while the operation-gate is held —
the claimed fixed order (connect-gate never acquired under the
operation-gate) is violated by an actual execution. -/
theorem connect_gate_under_op_gate_cex :
    connectWhileOp
      (set_position (fun _ => false) fullEnv 80 readyState [TRes.err .dbus]).2.2.2
      = true := by
  decide

/-- Claim C7 (amended): the fixed acquisition order that does hold
everywhere is the reverse one — in every execution of `set_position` or
`get_position`, the operation-gate is never acquired while the
connect-gate is held. -/
theorem op_gate_never_under_connect_gate (unreg : Nat → Bool) (env : Env)
    (pos : Nat) (s : BlindState) (w : World) :
    opWhileConnect (set_position unreg env pos s w).2.2.2 = false
  ∧ opWhileConnect (get_position unreg env s w).2.2.2 = false := by
  constructor
  · rcases he : ensureConnected env s with ⟨s1, evs1⟩
    have hevs1 : ∀ d, scanOW evs1 d = (false, d) := by
      intro d
      have := ensureConnected_trace_neutral env s d
      rw [he] at this
      simpa using this
    rcases hl : setPositionLocked pos s1 w with ⟨r, s2, w2, evs⟩
    have hevs : ∀ d, scanOW evs d = (false, d) := by
      intro d
      have := setPositionLocked_trace_neutral pos s1 w d
      rw [hl] at this
      simpa using this
    cases r with
    | error e =>
      simp [opWhileConnect, set_position, setPositionWhileConnected, he, hl,
        scanOW_append, scanOW, hevs1, hevs]
    | ok v =>
      rcases hfc : fireCallbacks unreg s2.callbacks with ⟨cbs, fired⟩
      simp [opWhileConnect, set_position, setPositionWhileConnected, he, hl, hfc,
        scanOW_append, scanOW, hevs1, hevs, fires_trace_neutral]
  · rcases he : ensureConnected env s with ⟨s1, evs1⟩
    have hevs1 : ∀ d, scanOW evs1 d = (false, d) := by
      intro d
      have := ensureConnected_trace_neutral env s d
      rw [he] at this
      simpa using this
    rcases hl : getPositionLocked unreg s1 w with ⟨r, s2, w2, evs⟩
    have hevs : ∀ d, scanOW evs d = (false, d) := by
      intro d
      have := getPositionLocked_trace_neutral unreg s1 w d
      rw [hl] at this
      simpa using this
    simp [opWhileConnect, get_position, getPositionWhileConnected, he, hl,
      scanOW_append, scanOW, hevs1, hevs]

end Blind

namespace Blind

/-- With no self-unregistering callback, the fire loop invokes exactly the
suffix of the list from the current index and leaves the list unchanged. -/
theorem fireAux_no_unreg (fuel : Nat) : ∀ (lst : List Nat) (i : Nat),
    lst.length ≤ fuel + i →
    fireAux (fun _ => false) fuel lst i = (lst, lst.drop i) := by
  induction fuel with
  | zero =>
    intro lst i h
    have hd : lst.drop i = [] := List.drop_eq_nil_of_le (by omega)
    simp [fireAux, hd]
  | succ fuel ih =>
    intro lst i h
    by_cases hi : i < lst.length
    · simp only [fireAux, dif_pos hi]
      have hlst : (if false = true then lst.erase (lst.get ⟨i, hi⟩) else lst) = lst := by
        simp
      rw [hlst, ih lst (i + 1) (by omega), List.drop_eq_getElem_cons hi]
      rfl
    · have hd : lst.drop i = [] := List.drop_eq_nil_of_le (by omega)
      simp [fireAux, hi, hd]

/-- `_fire_callbacks` with no self-unregistering callback invokes every
registered callback once, in order, and preserves the list. -/
theorem fireCallbacks_no_unreg (cbs : List Nat) :
    fireCallbacks (fun _ => false) cbs = (cbs, cbs) := by
  have h := fireAux_no_unreg cbs.length cbs 0 (by omega)
  simpa [fireCallbacks] using h

/-- Callback-invocation events all pass the fire filter. -/
theorem filterFire_map_fires (l : List Nat) (v : Nat) :
    List.filter Event.isFire (l.map fun c => Event.fire c v)
      = l.map fun c => Event.fire c v := by
  induction l with
  | nil => simp
  | cons c r ih => simp [Event.isFire, ih]

/-- The timer rearm preserves position and callbacks and fires nothing. -/
theorem resetTimer_frame (s : BlindState) :
    (resetDisconnectTimer s).1.position = s.position
  ∧ (resetDisconnectTimer s).1.callbacks = s.callbacks
  ∧ List.filter Event.isFire (resetDisconnectTimer s).2 = [] := by
  rcases hdt : s.disconnect_timer with _ | x <;>
    simp [resetDisconnectTimer, hdt, Event.isFire]

/-- The timer rearm performs no characteristic resolution. -/
theorem filterResolve_resetTimer (s : BlindState) :
    List.filter Event.isResolve (resetDisconnectTimer s).2 = [] := by
  rcases hdt : s.disconnect_timer with _ | x <;>
    simp [resetDisconnectTimer, hdt, Event.isResolve]

/-- Characteristic resolution touches only the two handle fields. -/
theorem resolveCharacteristics_frame (s : BlindState) (cat : Catalogue) :
    (resolveCharacteristics s cat).1.position = s.position
  ∧ (resolveCharacteristics s cat).1.callbacks = s.callbacks := by
  cases hhs : cat.hasService <;>
    rcases hrc : cat.readChar with _ | r <;>
      rcases hwc : cat.writeChar with _ | wc <;>
        simp [resolveCharacteristics, hhs, hrc, hwc]

/-- `_ensure_connected` preserves position and callbacks and fires
nothing. -/
theorem ensureConnected_frame (env : Env) (s : BlindState) :
    (ensureConnected env s).1.position = s.position
  ∧ (ensureConnected env s).1.callbacks = s.callbacks
  ∧ List.filter Event.isFire (ensureConnected env s).2 = [] := by
  cases hcon : isConnected s
  · rcases hr1 : resolveCharacteristics s env.cached with ⟨s1, resolved⟩
    have f1 := resolveCharacteristics_frame s env.cached
    rw [hr1] at f1
    cases resolved
    · rcases hr2 : resolveCharacteristics s1 env.refetched with ⟨s2, b2⟩
      have f2 := resolveCharacteristics_frame s1 env.refetched
      rw [hr2] at f2
      rcases hrt : resetDisconnectTimer
          { s2 with client := some { is_connected := true } } with ⟨s4, tevs⟩
      have f4 := resetTimer_frame { s2 with client := some { is_connected := true } }
      rw [hrt] at f4
      simp only at f1 f2 f4
      have key : ensureConnected env s =
          (s4, [Event.acquire .connectGate, Event.connectTransport]
            ++ [Event.resolveAttempt false, Event.resolveAttempt true]
            ++ tevs ++ [Event.release .connectGate]) := by
        simp [ensureConnected, hcon, hr1, hr2, hrt]
      rw [key]
      refine ⟨f4.1.trans (f2.1.trans f1.1), f4.2.1.trans (f2.2.trans f1.2), ?_⟩
      simp [Event.isFire, List.filter_append, f4.2.2]
    · rcases hrt : resetDisconnectTimer
          { s1 with client := some { is_connected := true } } with ⟨s4, tevs⟩
      have f4 := resetTimer_frame { s1 with client := some { is_connected := true } }
      rw [hrt] at f4
      simp only at f1 f4
      have key : ensureConnected env s =
          (s4, [Event.acquire .connectGate, Event.connectTransport]
            ++ [Event.resolveAttempt false]
            ++ tevs ++ [Event.release .connectGate]) := by
        simp [ensureConnected, hcon, hr1, hrt]
      rw [key]
      refine ⟨f4.1.trans f1.1, f4.2.1.trans f1.2, ?_⟩
      simp [Event.isFire, List.filter_append, f4.2.2]
  · have f := resetTimer_frame s
    simpa [ensureConnected, hcon] using f

/-- `_execute_disconnect` preserves position and callbacks and fires
nothing. -/
theorem executeDisconnect_frame (s : BlindState) :
    (executeDisconnect s).1.position = s.position
  ∧ (executeDisconnect s).1.callbacks = s.callbacks
  ∧ List.filter Event.isFire (executeDisconnect s).2 = [] := by
  rcases hc : s.client with _ | c
  · simp [executeDisconnect, hc, Event.isFire]
  · cases hb : c.is_connected <;>
      rcases hr : s.position_read_char with _ | rc <;>
        simp [executeDisconnect, hc, hb, hr, Event.isFire]

/-- The device write leaves the state untouched and fires nothing. -/
theorem executePositionLocked_frame (p : Nat) (s : BlindState) (w : World) :
    (executePositionLocked p s w).2.1 = s
  ∧ List.filter Event.isFire (executePositionLocked p s w).2.2.2 = [] := by
  rcases hc : s.client with _ | c
  · simp [executePositionLocked, hc]
  · rcases hw : s.position_write_char with _ | h
    · simp [executePositionLocked, hc, hw]
    · rcases hp : packH p with _ | pl
      · simp [executePositionLocked, hc, hw, hp]
      · rcases w with _ | ⟨r, rest⟩
        · simp [executePositionLocked, hc, hw, hp, takeWorld, Event.isFire]
        · rcases r with dt | e <;>
            simp [executePositionLocked, hc, hw, hp, takeWorld, Event.isFire]

/-- The inner error handler preserves position and callbacks and fires
nothing. -/
theorem lockedErrHandler_frame (e : BleErr) (s : BlindState) :
    (lockedErrHandler e s).1.position = s.position
  ∧ (lockedErrHandler e s).1.callbacks = s.callbacks
  ∧ List.filter Event.isFire (lockedErrHandler e s).2 = [] := by
  rcases hd : executeDisconnect s with ⟨s1, evs⟩
  have f := executeDisconnect_frame s
  rw [hd] at f
  simp only at f
  have hdbus : lockedErrHandler .dbus s = (s1, [Event.backoff] ++ evs) := by
    simp only [lockedErrHandler, hd]
  have hbleak : lockedErrHandler .bleak s = (s1, evs) := by
    simp only [lockedErrHandler, hd]
  have hnot : lockedErrHandler .notFound s = (s1, evs) := by
    simp only [lockedErrHandler, hd]
  cases e with
  | dbus => rw [hdbus]; simp [Event.isFire, f.1, f.2.1, f.2.2]
  | bleak => rw [hbleak]; exact f
  | notFound => rw [hnot]; exact f
  | charMissing => simp [lockedErrHandler]
  | structError => simp [lockedErrHandler]
  | assertFail => simp [lockedErrHandler]

/-- The single-attempt write body preserves position and callbacks and
fires nothing. -/
theorem setBody_frame (p : Nat) (s : BlindState) (w : World) :
    (setPositionLockedBody p s w).2.1.position = s.position
  ∧ (setPositionLockedBody p s w).2.1.callbacks = s.callbacks
  ∧ List.filter Event.isFire (setPositionLockedBody p s w).2.2.2 = [] := by
  rcases hx : executePositionLocked p s w with ⟨r, s1, w1, evs⟩
  have fx := executePositionLocked_frame p s w
  rw [hx] at fx
  simp only at fx
  obtain ⟨hs1, hevsE⟩ := fx
  subst hs1
  cases r with
  | ok v => simp [setPositionLockedBody, hx, hevsE]
  | error e =>
    rcases hh : lockedErrHandler e s1 with ⟨s2, evs2⟩
    have fh := lockedErrHandler_frame e s1
    rw [hh] at fh
    simp only at fh
    simp [setPositionLockedBody, hx, hh, List.filter_append, hevsE,
      fh.1, fh.2.1, fh.2.2]

/-- The retry wrapper preserves position/callback preservation and
fire-freedom of its body. -/
theorem retryWrap_frame
    (body : BlindState → World → Except BleErr Unit × BlindState × World × List Event)
    (hb : ∀ s w, (body s w).2.1.position = s.position
       ∧ (body s w).2.1.callbacks = s.callbacks
       ∧ List.filter Event.isFire (body s w).2.2.2 = []) :
    ∀ (n : Nat) (s : BlindState) (w : World),
      (retryWrap n body s w).2.1.position = s.position
    ∧ (retryWrap n body s w).2.1.callbacks = s.callbacks
    ∧ List.filter Event.isFire (retryWrap n body s w).2.2.2 = [] := by
  intro n
  induction n with
  | zero => intro s w; simp [retryWrap]
  | succ n ih =>
    intro s w
    rcases hx : body s w with ⟨r, s1, w1, evs⟩
    have fx := hb s w
    rw [hx] at fx
    simp only at fx
    cases r with
    | ok v => simpa [retryWrap, hx] using fx
    | error e =>
      by_cases hre : (isRetryExc e && n != 0) = true
      · rcases hy : retryWrap n body s1 w1 with ⟨r2, s2, w2, evs2⟩
        have fy := ih s1 w1
        rw [hy] at fy
        simp only at fy
        simp [retryWrap, hx, hre, hy, List.filter_append, fx.1, fx.2.1, fx.2.2,
          fy.1, fy.2.1, fy.2.2]
      · simp only [Bool.not_eq_true] at hre
        simpa [retryWrap, hx, hre] using fx

/-- Claim C1 (amended): after a successful `set_position`, the locally
stored position is unchanged (there is no optimistic update to the
requested value) and every registered callback is invoked exactly once,
in registration order, receiving that unchanged stored position — so a
caller wanting the written value reflected locally must issue a
subsequent read. -/
theorem set_position_fires_with_stored_position
    (env : Env) (pos : Nat) (s : BlindState) (w : World)
    (h : (set_position (fun _ => false) env pos s w).1 = .ok ()) :
    (set_position (fun _ => false) env pos s w).2.1.position = s.position
  ∧ (set_position (fun _ => false) env pos s w).2.1.callbacks = s.callbacks
  ∧ List.filter Event.isFire (set_position (fun _ => false) env pos s w).2.2.2
      = s.callbacks.map (fun c => Event.fire c s.position) := by
  rcases he : ensureConnected env s with ⟨s1, evs1⟩
  have f1 := ensureConnected_frame env s
  rw [he] at f1
  simp only at f1
  rcases hl : setPositionLocked pos s1 w with ⟨r, s2, w2, evs⟩
  have hl' : retryWrap DEFAULT_ATTEMPTS (setPositionLockedBody pos) s1 w
      = (r, s2, w2, evs) := hl
  have f2 := retryWrap_frame (setPositionLockedBody pos)
    (fun s w => setBody_frame pos s w) DEFAULT_ATTEMPTS s1 w
  rw [hl'] at f2
  simp only at f2
  cases r with
  | error e =>
    exfalso
    simp [set_position, setPositionWhileConnected, he, hl] at h
  | ok v =>
    rcases hfc : fireCallbacks (fun _ => false) s2.callbacks with ⟨cbs, fired⟩
    have hfc' := fireCallbacks_no_unreg s2.callbacks
    rw [hfc] at hfc'
    injection hfc' with hcbs hfired
    simp [set_position, setPositionWhileConnected, he, hl, hfc,
      List.filter_append, Event.isFire, filterFire_map_fires,
      f1.1, f1.2.1, f1.2.2, f2.1, f2.2.1, f2.2.2, hcbs, hfired,
      fireCallbacks_no_unreg]

/-- Witness for the amended C1 at a concrete successful run. -/
theorem set_position_fires_with_stored_position_witness :
    (set_position (fun _ => false) fullEnv 80 readyState [TRes.ok []]).1 = Except.ok ()
  ∧ List.filter Event.isFire
      (set_position (fun _ => false) fullEnv 80 readyState [TRes.ok []]).2.2.2
      = [Event.fire 7 0] := by
  refine ⟨rfl, ?_⟩
  have h := set_position_fires_with_stored_position fullEnv 80 readyState
    [TRes.ok []] rfl
  simpa using h.2.2

/-- Claim C5 (amended): when resolution over the cached catalogue fails,
exactly one explicit re-fetch of the service list is attempted and
resolution retried on it — but `_ensure_connected` then completes
unconditionally: the connected client is stored and the idle timer armed
even if the second resolution also left handles unresolved; the missing
handle surfaces only later as a characteristic-missing failure when an
operation runs. -/
theorem ensure_connected_single_refetch_then_completes
    (env : Env) (s : BlindState)
    (h1 : isConnected s = false)
    (h2 : (resolveCharacteristics s env.cached).2 = false) :
    (ensureConnected env s).1 =
      { (resolveCharacteristics (resolveCharacteristics s env.cached).1
           env.refetched).1 with
        client := some { is_connected := true },
        expected_disconnect := false,
        disconnect_timer := some DISCONNECT_DELAY }
  ∧ List.filter Event.isResolve (ensureConnected env s).2
      = [Event.resolveAttempt false, Event.resolveAttempt true] := by
  rcases hr1 : resolveCharacteristics s env.cached with ⟨s1, resolved⟩
  rw [hr1] at h2
  simp only at h2
  subst h2
  rcases hr2 : resolveCharacteristics s1 env.refetched with ⟨s2, b2⟩
  rcases hrt : resetDisconnectTimer
      { s2 with client := some { is_connected := true } } with ⟨s4, tevs⟩
  have hs4 : s4 = { s2 with
      client := some { is_connected := true },
      expected_disconnect := false,
      disconnect_timer := some DISCONNECT_DELAY } := by
    have h := hrt
    simp only [resetDisconnectTimer] at h
    injection h with h' h''
    exact h'.symm
  have ft := filterResolve_resetTimer { s2 with client := some { is_connected := true } }
  rw [hrt] at ft
  simp only at ft
  constructor
  · simp [ensureConnected, h1, hr1, hr2, hrt, hs4]
  · simp [ensureConnected, h1, hr1, hr2, hrt, Event.isResolve,
      List.filter_append, ft]

/-- Witness for the amended C5 at a concrete fresh state and empty
catalogues. -/
theorem ensure_connected_single_refetch_then_completes_witness :
    isConnected freshState = false
  ∧ (resolveCharacteristics freshState emptyEnv.cached).2 = false
  ∧ List.filter Event.isResolve (ensureConnected emptyEnv freshState).2
      = [Event.resolveAttempt false, Event.resolveAttempt true] :=
  ⟨by decide, by decide,
   (ensure_connected_single_refetch_then_completes emptyEnv freshState
     (by decide) (by decide)).2⟩

end Blind
